import Mathlib

/- Verification of the plinian-webhook orchestration code: a shallow
embedding of the pure computations of `src/app.py`,
`src/response_detector.py` and `src/plinian_outreach_llm.py`, followed by
theorems about them. Strings are Lean `String`s (lists of Unicode code
points); Python string primitives used by the code are modelled below. -/

/-- Python `str.lower` restricted to the ASCII range (the only range the
code's inputs exercise), applied to every character: `Char.toLower` is
exactly the `A`-`Z` to `a`-`z` shift. -/
def pyLower (s : String) : String := ⟨s.data.map Char.toLower⟩

/-- The whitespace characters Python `str.strip()` removes (ASCII range). -/
def isPySpace (c : Char) : Bool :=
  c = ' ' || c = '\t' || c = '\n' || c = '\r' || c = '\x0b' || c = '\x0c'

/-- Python `str.strip()`: drop whitespace from both ends. -/
def pyStrip (s : String) : String :=
  ⟨((s.data.dropWhile isPySpace).reverse.dropWhile isPySpace).reverse⟩

/-- Python `str.replace(pat, repl)` over a character list: replace leftmost
non-overlapping occurrences scanning left to right, never rescanning the
replacement text. The second argument counts characters of a just-matched
occurrence still to be consumed without emitting (structural recursion on
the list, so the kernel can evaluate it). (For the degenerate empty
pattern, which the webhook code never uses, this returns the list
unchanged.) -/
def replaceAux (pat repl : List Char) : List Char → Nat → List Char
  | [], _ => []
  | c :: rest, 0 =>
    if pat ≠ [] ∧ pat.isPrefixOf (c :: rest) then
      repl ++ replaceAux pat repl rest (pat.length - 1)
    else
      c :: replaceAux pat repl rest 0
  | _ :: rest, n + 1 => replaceAux pat repl rest n

/-- Python `str.replace(pat, repl)` over a character list. -/
def replaceList (pat repl s : List Char) : List Char :=
  replaceAux pat repl s 0

/-- Python `s.replace(pat, repl)` on strings. -/
def pyReplace (s pat repl : String) : String := ⟨replaceList pat.data repl.data s.data⟩

/-- Python `s.split('/')[0]`: the prefix of `s` before the first slash
(the whole of `s` when it has no slash; `""` when `s` is `""`). -/
def splitSlashHead (s : String) : String := ⟨s.data.takeWhile (fun c => c != '/')⟩

/-- Python truthiness of an optional string: `None` and `""` are falsy. -/
def pyTruthy (s : Option String) : Bool :=
  match s with
  | none => false
  | some v => v != ""

/-- `normalize_fit` from `src/app.py` (inside `handle_firm_scoring`): map
the LLM's fit value (possibly missing) onto the fixed Notion select
taxonomy. A missing or falsy value and every unrecognized string become
`"N/A"`. -/
def normalize_fit (value : Option String) : String :=
  match value with
  | none => "N/A"
  | some v =>
    if v = "" then "N/A"
    else
      let s := pyStrip v
      if pyLower s ∈ ["strong", "strong fit"] then "Strong"
      else if pyLower s ∈ ["moderate", "moderate fit"] then "Moderate"
      else if pyLower s ∈ ["weak", "weak fit"] then "Weak"
      else "N/A"

/-- `extract_domain` from `src/app.py`: lowercase, strip the protocol and
`www.` substrings, and keep what stands before the first slash. Falsy
input (missing, or the empty string) gives `none`. -/
def extract_domain (website_url : Option String) : Option String :=
  match website_url with
  | none => none
  | some u =>
    if u = "" then none
    else
      let d := pyLower u
      let d := pyReplace (pyReplace d "https://" "") "http://" ""
      let d := pyReplace d "www." ""
      some (splitSlashHead d)

/-- A typed Notion property value as the webhook writes it: the payload of
one entry of a `properties` update/create dictionary. -/
inductive NotionValue where
  | select (name : String)
  | multi_select (names : List String)
  | rich_text (content : String)
  | title (content : String)
  | checkbox (b : Bool)
  | url (u : String)
  | email (e : String)
  | number (n : Int)
  | date (start : String)
deriving DecidableEq

/-- Is this property value a tag set (a Notion `multi_select`)? -/
def NotionValue.isTagSet : NotionValue → Bool
  | .multi_select _ => true
  | _ => false

/-- The record update performed by `handle_notion_new_firm` in `src/app.py`
after the Clay dispatch: on success, `Research Status` is set to
`Researching` and, when the run was a restart trigger, `Restart Enrichment`
is unchecked; on dispatch failure the handler returns an error response and
performs no record update (`none`). -/
def handle_notion_new_firm_update (is_restart : Bool) (dispatch_success : Bool) :
    Option (List (String × NotionValue)) :=
  if dispatch_success then
    some (if is_restart then
      [("Research Status", .select "Researching"),
       ("Restart Enrichment", .checkbox false)]
    else
      [("Research Status", .select "Researching")])
  else
    none

/-- The inbound payload of `/webhook/clay/person-enriched` (`src/app.py`):
every field read by the handler, as the optional strings `data.get`
yields. -/
structure PersonEnrichedData where
  full_name : Option String
  company_name : Option String
  email : Option String
  linkedin_url : Option String
  title : Option String

/-- An action against the record store: create a fresh record in a
collection, or update an existing record's properties. -/
inductive CrmAction where
  | create (database_id : String) (props : List (String × NotionValue))
  | update (page_id : String) (props : List (String × NotionValue))

/-- Does this action create a record (rather than update one)? -/
def CrmAction.isCreate : CrmAction → Bool
  | .create _ _ => true
  | .update _ _ => false

/-- The properties of this action. -/
def CrmAction.props : CrmAction → List (String × NotionValue)
  | .create _ p => p
  | .update _ p => p

def PROSPECTS_DB_ID : String := "2aec16a0-949c-8061-9fdd-daabdc22d5e2"

/-- `handle_clay_person_enriched` from `src/app.py`: build the prospect
properties (status `Qualified` exactly when an email is present and
non-empty, else `New`; optional fields only when truthy) and create a page
in the Prospects database. The handler performs no lookup of an existing
contact. -/
def handle_clay_person_enriched (data : PersonEnrichedData) : CrmAction :=
  .create PROSPECTS_DB_ID
    ([("Name", .title (data.full_name.getD "Unknown")),
      ("Company", .rich_text (data.company_name.getD "")),
      ("Status", .select (if pyTruthy data.email then "Qualified" else "New"))]
     ++ (if pyTruthy data.email then [("Email", .email (data.email.getD ""))] else [])
     ++ (if pyTruthy data.linkedin_url then
          [("LinkedIn URL", .url (data.linkedin_url.getD ""))] else [])
     ++ (if pyTruthy data.title then
          [("Title/Role", .rich_text (data.title.getD ""))] else []))

/-- The positive keyword set of `classify_response_tone`
(`src/response_detector.py`). -/
def positive_keywords : List String :=
  ["interested", "yes", "sounds good", "let's discuss", "happy to",
   "would love to", "absolutely", "definitely", "great", "perfect",
   "schedule", "meeting", "call", "connect"]

/-- The negative keyword set of `classify_response_tone`
(`src/response_detector.py`). -/
def negative_keywords : List String :=
  ["not interested", "no thank you", "pass", "not a fit", "decline",
   "unsubscribe", "remove", "stop", "not at this time"]

/-- Python `sub in s` on character lists: `sub` occurs as a contiguous
substring of `s` (the empty pattern occurs in every string). -/
def containsSub (pat : List Char) : List Char → Bool
  | [] => pat.isEmpty
  | c :: rest => pat.isPrefixOf (c :: rest) || containsSub pat rest

/-- `classify_response_tone` from `src/response_detector.py`: count
case-insensitive keyword hits; any negative hit wins, then any positive
hit, else neutral. -/
def classify_response_tone (email_body : String) : String :=
  let body_lower := pyLower email_body
  let positive_count := positive_keywords.countP (fun k => containsSub k.data body_lower.data)
  let negative_count := negative_keywords.countP (fun k => containsSub k.data body_lower.data)
  if negative_count > 0 then "Responded — Negative"
  else if positive_count > 0 then "Responded — Positive"
  else "Responded — Neutral"

/-- The dated excerpt `update_outreach_entry` appends to the Notes text
when the reply has a body (`src/response_detector.py`): a marker carrying
the response date, then the first 200 characters of the body, then an
ellipsis. -/
def response_snippet (response_date email_body : String) : String :=
  "\n\n[Response received " ++ response_date ++ "]\n" ++ ⟨email_body.data.take 200⟩ ++ "..."

/-- The properties written by `update_outreach_entry`
(`src/response_detector.py`): response status and date, the outcome select
(`In Discussion` unless the classification is `Responded — Negative`, then
`Declined`), `Follow-up Required` unchecked, and — when the reply body is
truthy — the Notes text currently on the page followed by the dated
excerpt. -/
def update_outreach_entry_properties (response_status response_date : String)
    (email_body : Option String) (current_text : String) :
    List (String × NotionValue) :=
  let base : List (String × NotionValue) :=
    [("Response Status", .select response_status),
     ("Response Date", .date response_date),
     ("Outcome", .select (if response_status ≠ "Responded — Negative"
                          then "In Discussion" else "Declined")),
     ("Follow-up Required", .checkbox false)]
  if pyTruthy email_body then
    base ++ [("Notes", .rich_text (current_text ++ response_snippet response_date (email_body.getD "")))]
  else
    base

/-- The sanitization `handle_firm_scoring` (`src/app.py`) applies to the
upstream research text before building the scoring prompt: when truthy,
collapse newlines and carriage returns to spaces and truncate to 5000
characters. -/
def sanitize_research (firm_research : String) : String :=
  if firm_research = "" then firm_research
  else ⟨((pyReplace (pyReplace firm_research "\n" " ") "\r" " ").data.take 5000)⟩

/-- The static scoring instructions of `handle_firm_scoring`'s prompt
(`src/app.py`): everything after the firm-information header, verbatim. -/
def scoring_prompt_rules : String :=
  "=========================\x3d=========================\x3d=========================
SCORING INSTRUCTIONS
=========================\x3d=========================\x3d=========================
For each client, evaluate the firm against the specific criteria below.
- \"Strong\" = Multiple high-fit signals present, no disqualifying factors, clear alignment
- \"Moderate\" = Some alignment, no hard disqualifiers, but missing key signals or unconfirmed
- \"Weak\" = Minimal alignment, potential mismatches, or only tangential fit
- \"N/A\" = Clear disqualifier present OR completely wrong asset class/mandate

Be rigorous. Most firms should NOT be \"Strong\" for most clients.
If research is insufficient to evaluate, default to \"Weak\" or \"N/A\" with explanation.

=========================\x3d=========================\x3d=========================
CLIENT 1: STONERIVER - Fund III
=========================\x3d=========================\x3d=========================
PRODUCT: $200M Multifamily Real Estate Fund, Southeast US, Value-Add + Development (up to 30%)
STRUCTURE: Vertically integrated (in-house construction + property management)
CHECK SIZE: $5M-$25M

TARGET TIERS:
1. \"Operator-Focused\" Allocators: MFOs, SFOs, specialized RIAs seeking \"vertically integrated\" or \"operator-led\" deals, Sunbelt focus, prefer funds <$500M
2. Regional Institutions: Healthcare Foundations, Hospitals, University Endowments, Community Foundations with RE/Alternatives bucket
3. Wealth Aggregators: CIOs of large RIAs/Wealth Platforms buying on behalf of multiple HNW clients
4. OCIO/Consultants: Senior RE leadership with defined manager research teams

HIGH-FIT SIGNALS: \"Vertically integrated\", \"Operator\", \"Sunbelt\", \"Southeast\", \"Migration\", \"Value-Add\", \"Opportunistic\", \"Middle Market\", \"Real Assets\", multifamily/apartment investments

DISQUALIFY IF: Retail without FO structure, Core-only/Stabilized-only mandate (can't tolerate 30% development), Gateway purist (NYC/SF/LA only), Distressed debt/credit hunter (equity strategy), Internal RE org doing direct sourcing, Check size >$50M

=========================\x3d=========================\x3d=========================
CLIENT 2: ASHTON GRAY - AGIF
=========================\x3d=========================\x3d=========================
PRODUCT: Evergreen fund of STABILIZED healthcare-anchored retail real estate
STRUCTURE: 31 properties, 100% occupied, ~10yr WALT, 28% GP co-invest, >7% monthly distributions
LIQUIDITY: 2-year lockup, 10% annual NAV redemption, K-1

CRITICAL: AGIF is NOT development. It is stabilized income with healthcare tenancy.

TARGET TIERS:
1. Real Estate Income/Core+ Allocators: Endowments, healthcare foundations, hospitals, insurance, pensions with income mandates
2. Family Offices seeking income, tax efficiency, K-1, healthcare tenancy
3. Wealth Platforms/RIAs offering income alternatives
4. OCIOs advising on income/stable RE

HIGH-FIT SIGNALS: \"Core/Core+\", \"Income-focused\", \"Yield\", \"Healthcare real estate\", \"Medical office\", \"Long-term leases\", \"WALT\", \"NNN\", \"Sunbelt\", \"Evergreen\", \"Durable income\", \"Defensive tenancy\"

DISQUALIFY IF: Gateway-only retail mandates (AGIF is Sunbelt), Development-only, Debt/credit-only, Industrial/multifamily-only, Retail individuals, <2yr liquidity needs, Excludes retail/healthcare retail, Value-add/distressed seekers, Internal RE groups

=========================\x3d=========================\x3d=========================
CLIENT 3: WILLOW CREST - Inflation Structural Alpha
=========================\x3d=========================\x3d=========================
PRODUCT: Structural alpha, inflation-linked strategy exploiting long-duration economic dislocations
STRUCTURE: Highly proprietary IP requiring NDA, 10-20+ year horizon, potential multi-X returns
CHECK SIZE: $50M-$200M+

CRITICAL: NOT traditional real assets. Confidential macro-driven structural trade.

TARGET TIERS:
1. Endowments & Foundations: Inflation-protection, real asset, diversifying buckets; long-duration comfort
2. SWFs & Public Pensions: Large pools of long-duration capital, specialist inflation/real asset teams
3. Large FOs/MFOs (Institutional-Grade Only): Inflation resilience, asymmetric opportunities, CIO with macro background

HIGH-FIT SIGNALS: \"Inflation-linked\", \"Inflation protection\", \"Inflation-sensitive\", \"Real Return\", \"Real Assets\", \"Non-correlated\", \"Diversifying\", \"Long-duration capital\", \"Patient capital\", \"Opportunistic\", \"Special Situations\", \"Structural Themes\", prior timber/royalties/insurance-linked allocations

DISQUALIFY IF: Retail individuals, Equity-only/60-40 traditionalists, Crypto-only allocators, Consultants without discretion, Won't sign NDAs early, Short-duration/high-liquidity needs, <$50M check capacity

=========================\x3d=========================\x3d=========================
CLIENT 4: ICW HOLDINGS - Strategic Equities
=========================\x3d=========================\x3d=========================
PRODUCT: Global macro-driven, balanced, long-only equity strategy with 4 sub-portfolios
STRUCTURE: ~11.7% returns, ~7.8% vol, monthly liquidity, 1%/10% fees
PEDIGREE: Founded by Mark Dinner, former senior Bridgewater leader (built algorithms for Pure Alpha, All Weather)

CRITICAL: PUBLIC EQUITIES, long-only, no leverage. NOT a hedge fund.

TARGET TIERS:
1. Institutions with Global Equity Mandates: Endowments, foundations, healthcare systems, sovereigns, pensions, OCIOs
2. MFOs/SFOs valuing equity compounding with macro discipline
3. RIAs/Wealth Platforms seeking differentiated long-only exposure
4. OCIOs/Consultants running global equity searches

HIGH-FIT SIGNALS: \"Global equity\", \"ACWI\", \"Macro-aware\", \"Regime-aware\", \"Risk-managed equities\", \"Downside mitigation\", \"Inflation resilience\" (equity context), \"Quality\", \"Cash flow focus\", Bridgewater familiarity/respect

DISQUALIFY IF: Private-only allocators, Hedge fund-only mandates (want leverage/shorting), Single-factor/single-region only, Leverage-seeking, Retail/unstaffed FOs, Explicitly avoid macro frameworks, Index-only buyers, Daily liquidity required

=========================\x3d=========================\x3d=========================
CLIENT 5: HIGHMOUNT - Sports & Entertainment Growth PE
=========================\x3d=========================\x3d=========================
PRODUCT: Growth PE fund focused on sports & entertainment, tech-enabled media, creator economy
STRUCTURE: Pre-launch, targeting $1B+ raise
CHECK SIZE: $50M-$250M
PEDIGREE: Nine-figure Dude Perfect investment (April 2024)

CRITICAL: GROWTH PRIVATE EQUITY, pre-launch. NOT real assets, NOT income.

TARGET TIERS:
1. Large Institutions with PE Growth Mandates: SWFs, large pensions, insurance, endowments with PE programs
2. Foundations/Strategic Investors with growth capital or entertainment interest
3. Growth-Focused FOs/MFOs willing to back pre-launch funds
4. OCIOs/Consultants with PE growth mandates

HIGH-FIT SIGNALS: \"Private equity growth\", \"Growth equity\", \"Sports & entertainment\", \"Media\", \"Creator economy\", \"Live experiences\", \"Tech-enabled media\", \"Middle market PE\", \"Pre-fund commitment\", \"Anchor investor\", prior sports/media investments

DISQUALIFY IF: Retail individuals, Core/income-only mandates (no growth), Traditional buyout only, <5yr horizon, Avoid sports/entertainment/media, Passive/index only, Require full track record (this is pre-launch), Consultants without discretion

=========================\x3d=========================\x3d=========================
CLIENT 6: CO-INVEST PLATFORM
=========================\x3d=========================\x3d=========================
PRODUCT: Variable deal flow - direct minority equity, structured equity, JVs, club deals across sectors
STRUCTURE: Deal-by-deal, not a fund
CHECK SIZE: $5M-$200M+ depending on deal

CRITICAL: About CO-INVEST CAPABILITY and MANDATE FLEXIBILITY.

TARGET TIERS:
1. Direct Co-Invest Specialists: SWFs, large pensions, mega-endowments, PE platforms with co-invest teams
2. FOs/MFOs with Direct Investing capability: $1B+ with deal teams, evergreen capital
3. PE FoFs with co-invest arms
4. OCIOs deploying co-invest for E&F clients

HIGH-FIT SIGNALS: \"Direct co-investments\", \"Co-invest program\", \"Opportunistic private\", \"Direct deals\", \"GP-adjacent\", \"Flexible check sizes\", \"Fast-track diligence\", \"JVs\", \"Structured equity\", evidence of prior direct deals outside fund commitments

DISQUALIFY IF: Retail/unstaffed FOs, Fund-only policy (no co-invest capability), Public markets only, Core RE or index only, Rigid IC can't do off-cycle deals, <$5M minimum capacity, Won't do quick NDAs, Require GP sponsor to participate, Daily liquidity required

=========================\x3d=========================\x3d=========================
OUTPUT FORMAT (Return ONLY valid JSON, no markdown fences)
=========================\x3d=========================\x3d=========================
\x7b
    \"stoneriver_fit\": \"Strong/Moderate/Weak/N/A\",
    \"stoneriver_rationale\": \"2-3 sentence explanation citing specific evidence from research\",
    \"ashtongray_fit\": \"Strong/Moderate/Weak/N/A\",
    \"ashtongray_rationale\": \"2-3 sentence explanation citing specific evidence from research\",
    \"willowcrest_fit\": \"Strong/Moderate/Weak/N/A\",
    \"willowcrest_rationale\": \"2-3 sentence explanation citing specific evidence from research\",
    \"icw_fit\": \"Strong/Moderate/Weak/N/A\",
    \"icw_rationale\": \"2-3 sentence explanation citing specific evidence from research\",
    \"highmount_fit\": \"Strong/Moderate/Weak/N/A\",
    \"highmount_rationale\": \"2-3 sentence explanation citing specific evidence from research\",
    \"coinvest_fit\": \"Strong/Moderate/Weak/N/A\",
    \"coinvest_rationale\": \"2-3 sentence explanation citing specific evidence from research\",
    \"best_match\": \"Client name with strongest fit, or 'None' if all N/A\",
    \"overall_notes\": \"1-2 sentence summary of allocator profile and where they fit in Plinian's universe\"
\x7d"

/-- The scoring prompt `handle_firm_scoring` (`src/app.py`) builds: the
firm-information header interpolating name, website and (sanitized)
research, followed by the static scoring instructions. -/
def scoring_prompt (firm_name website firm_research : String) : String :=
  "You are an expert institutional capital raising advisor for Plinian Strategies. \nAnalyze this allocator firm and score their fit for each of our 6 clients.\n\nFIRM INFORMATION:\n- Name: "
  ++ firm_name ++ "\n- Website: " ++ website ++ "\n- Research: " ++ firm_research
  ++ "\n\n" ++ scoring_prompt_rules

/-- The sequence of LLM requests one run of `handle_firm_scoring`
(`src/app.py`) issues: a single `client.messages.create` call carrying the
scoring prompt over the sanitized upstream research text. -/
def handle_firm_scoring_llm_prompts (firm_name website firm_research : String) : List String :=
  [scoring_prompt firm_name website (sanitize_research firm_research)]

/-- The parsed scoring response of `handle_firm_scoring` (`src/app.py`):
the JSON keys the handler reads via `scores.get`, each possibly missing. -/
structure ScoresJson where
  stoneriver_fit : Option String
  stoneriver_rationale : Option String
  ashtongray_fit : Option String
  ashtongray_rationale : Option String
  willowcrest_fit : Option String
  willowcrest_rationale : Option String
  icw_fit : Option String
  icw_rationale : Option String
  highmount_fit : Option String
  highmount_rationale : Option String
  coinvest_fit : Option String
  coinvest_rationale : Option String
  best_match : Option String
  overall_notes : Option String

/-- The qualification-notes text `handle_firm_scoring` builds from the
per-client rationales (`src/app.py`). -/
def qualification_notes_text (scores : ScoresJson) : String :=
  "Best Match: " ++ scores.best_match.getD "TBD"
  ++ "\n\nSTONERIVER: " ++ scores.stoneriver_rationale.getD ""
  ++ "\n\nASHTON GRAY: " ++ scores.ashtongray_rationale.getD ""
  ++ "\n\nWILLOW CREST: " ++ scores.willowcrest_rationale.getD ""
  ++ "\n\nICW: " ++ scores.icw_rationale.getD ""
  ++ "\n\nHIGHMOUNT: " ++ scores.highmount_rationale.getD ""
  ++ "\n\nCO-INVEST: " ++ scores.coinvest_rationale.getD ""
  ++ "\n\n---\n" ++ scores.overall_notes.getD ""

/-- The record update a successful run of `handle_firm_scoring`
(`src/app.py`) writes onto the firm: the six normalized fit selects, the
`Qualified` research status, and the qualification notes truncated to 2000
characters. -/
def handle_firm_scoring_updates (scores : ScoresJson) : List (String × NotionValue) :=
  [("StoneRiver Fit", .select (normalize_fit scores.stoneriver_fit)),
   ("Ashton Gray Fit", .select (normalize_fit scores.ashtongray_fit)),
   ("Willow Crest Fit", .select (normalize_fit scores.willowcrest_fit)),
   ("ICW Fit", .select (normalize_fit scores.icw_fit)),
   ("Highmount Fit", .select (normalize_fit scores.highmount_fit)),
   ("Co-Invests Fit", .select (normalize_fit scores.coinvest_fit)),
   ("Research Status", .select "Qualified"),
   ("Qualification Notes", .rich_text ⟨(qualification_notes_text scores).data.take 2000⟩)]

/-- The dictionary `generate_outreach_with_llm`
(`src/plinian_outreach_llm.py`) and `_fallback_outreach`
(`src/response_detector.py`) return. -/
structure OutreachDict where
  subject : String
  body : String
  primary_client : String
  secondary_clients : List String
  reasoning : String
  success : Bool
  error : Option String

/-- The outcome of the call to `generate_outreach_with_llm` as
`generate_outreach_for_firm` (`src/response_detector.py`) observes it: a
returned dictionary (whose `success` flag is false on a provider or parse
error), or a raised exception (e.g. the missing-API-key `ValueError` of
`PlinianOutreachGenerator.__init__`). -/
inductive LLMOutreachOutcome where
  | returned (r : OutreachDict)
  | raised

/-- Did the LLM call fail (error result or exception)? -/
def LLMOutreachOutcome.failed : LLMOutreachOutcome → Prop
  | .returned r => r.success = false
  | .raised => True

/-- The text of the fallback draft body standing before the firm name
(`_fallback_outreach`, `src/response_detector.py`). -/
def fallback_body_prefix : String :=
  "Hi,\n\nI hope this message finds you well. I'm Bill Sweeney, founder of Plinian Strategies - a boutique capital raising and strategic advisory firm.\n\nI came across "

/-- The text of the fallback draft body standing after the firm name
(`_fallback_outreach`, `src/response_detector.py`). -/
def fallback_body_suffix : String :=
  " and believe there may be alignment between your investment mandate and several managers we represent across real estate, global equities, and private growth equity.\n\nWould you have 15 minutes for a brief introductory call? I'd be happy to share an overview of our current opportunities and learn more about your priorities.\n\nBest regards,\nBill Sweeney\nPlinian Strategies\nbill@plinian.co\n(908) 347-0156\n"

/-- `_fallback_outreach` from `src/response_detector.py`: the fixed
fallback draft substituted when the LLM call fails. -/
def fallback_outreach (firm_name : String) : OutreachDict :=
  { subject := "Plinian Strategies - Introduction"
    body := fallback_body_prefix ++ firm_name ++ fallback_body_suffix
    primary_client := "General"
    secondary_clients := []
    reasoning := "Fallback template used due to LLM error"
    success := true
    error := none }

/-- `generate_outreach_for_firm` from `src/response_detector.py`: forward
the firm data to the LLM; when the call returns an unsuccessful result or
raises, substitute the fixed fallback draft. The firm name defaults to
`"Unknown Firm"` when the key is absent. -/
def generate_outreach_for_firm (firm_name : Option String) (llm : LLMOutreachOutcome) :
    OutreachDict :=
  let name := firm_name.getD "Unknown Firm"
  match llm with
  | .returned r => if r.success then r else fallback_outreach name
  | .raised => fallback_outreach name

/-- A concrete parsed scoring response with one `Strong` offering. -/
def exampleScores : ScoresJson where
  stoneriver_fit := some "Strong"
  stoneriver_rationale := some "Sunbelt operator focus with multifamily appetite."
  ashtongray_fit := some "Weak"
  ashtongray_rationale := some "No income mandate found."
  willowcrest_fit := some "N/A"
  willowcrest_rationale := some "Equity-only traditionalist."
  icw_fit := some "Moderate"
  icw_rationale := some "Global equity mandate, unconfirmed macro interest."
  highmount_fit := some "N/A"
  highmount_rationale := some "No growth PE program."
  coinvest_fit := some "N/A"
  coinvest_rationale := some "Fund-only policy."
  best_match := some "StoneRiver"
  overall_notes := some "Regional allocator with real-assets focus."

/-- A concrete person-enrichment callback payload carrying a name, a firm
and an email. -/
def examplePerson : PersonEnrichedData where
  full_name := some "Jane Doe"
  company_name := some "Acme Capital"
  email := some "jane@acme.com"
  linkedin_url := none
  title := some "CIO"

/-- A three-part concatenation whose first part is non-empty is a
non-empty string. -/
theorem append3_ne_empty (a b c : String) (h : a.data ≠ []) : a ++ b ++ c ≠ "" := by
  intro hc
  have hd : (a.data ++ b.data) ++ c.data = ([] : List Char) := congrArg String.data hc
  exact h (List.append_eq_nil.mp (List.append_eq_nil.mp hd).1).1

/-- The fallback draft always reports success, a fixed non-empty subject,
a non-empty body, and the neutral `General` primary client. -/
theorem fallback_outreach_spec (name : String) :
    (fallback_outreach name).success = true
    ∧ (fallback_outreach name).subject ≠ ""
    ∧ (fallback_outreach name).body ≠ ""
    ∧ (fallback_outreach name).primary_client = "General" := by
  refine ⟨rfl, ?_, ?_, rfl⟩
  · exact (by decide : ("Plinian Strategies - Introduction" : String) ≠ "")
  · exact append3_ne_empty fallback_body_prefix name fallback_body_suffix (by decide)

/-- C1: Fit normalization is total and exact: for every string (or missing
value), `normalize_fit` yields exactly one of the four taxonomy values, and
in particular maps `"strong fit"` to `Strong` and the empty or unrecognized
value to `N/A`. -/
theorem C1_normalize_fit_total_and_exact :
    (∀ s : Option String, normalize_fit s ∈ ["Strong", "Moderate", "Weak", "N/A"])
    ∧ normalize_fit (some "strong fit") = "Strong"
    ∧ normalize_fit (some "") = "N/A"
    ∧ normalize_fit (some "whatever") = "N/A"
    ∧ normalize_fit none = "N/A" := by
  refine ⟨fun s => ?_, by decide, by decide, by decide, rfl⟩
  match s with
  | none => decide
  | some v =>
    simp only [normalize_fit]
    repeat' split
    all_goals decide

/-- C3: Restart-flag atomicity: the new-firm handler clears the restart
flag and sets `Research Status` to `Researching` only when the Clay
dispatch succeeded; when the dispatch fails the firm record is not updated
at all, so the flag stays set. -/
theorem C3_restart_flag_cleared_only_after_dispatch : ∀ is_restart : Bool,
    handle_notion_new_firm_update is_restart false = none
    ∧ (handle_notion_new_firm_update is_restart true).isSome = true
    ∧ List.lookup "Research Status" ((handle_notion_new_firm_update is_restart true).getD [])
        = some (.select "Researching")
    ∧ List.lookup "Restart Enrichment" ((handle_notion_new_firm_update true true).getD [])
        = some (.checkbox false) := by
  intro ir
  cases ir <;> exact ⟨rfl, rfl, rfl, rfl⟩

/-- C4 counterexample: a successful scoring run whose parsed response rates
StoneRiver `Strong`, yet the record update the handler writes contains no
tag-set (multi-select) field whatsoever — so no best-matches tag set
holding the Strong-rated offerings is written by scoring. -/
theorem C4_counterexample :
    normalize_fit exampleScores.stoneriver_fit = "Strong"
    ∧ ∀ p ∈ handle_firm_scoring_updates exampleScores, p.2.isTagSet = false := by
  decide

/-- C4 (amended): the record update of a successful scoring run consists of
exactly the six per-offering fit selects (each normalized), the `Qualified`
research status and the qualification notes; it contains no tag-set field,
so Strong-rated offerings are not collected into a best-matches tag set by
the scoring handler. -/
theorem C4_scoring_update_fields : ∀ scores : ScoresJson,
    (handle_firm_scoring_updates scores).map Prod.fst =
      ["StoneRiver Fit", "Ashton Gray Fit", "Willow Crest Fit", "ICW Fit",
       "Highmount Fit", "Co-Invests Fit", "Research Status", "Qualification Notes"]
    ∧ List.lookup "StoneRiver Fit" (handle_firm_scoring_updates scores)
        = some (.select (normalize_fit scores.stoneriver_fit))
    ∧ List.lookup "Research Status" (handle_firm_scoring_updates scores)
        = some (.select "Qualified")
    ∧ (∀ p ∈ handle_firm_scoring_updates scores, p.2.isTagSet = false) := by
  intro s
  refine ⟨rfl, rfl, rfl, ?_⟩
  intro p hp
  simp only [handle_firm_scoring_updates, List.mem_cons, List.not_mem_nil, or_false] at hp
  rcases hp with rfl | rfl | rfl | rfl | rfl | rfl | rfl | rfl <;> rfl

/-- C6 counterexample: the person-enrichment handler emits a `create`
action (a fresh Prospects page) for a callback carrying a name — it never
emits an `update`, and it takes no account of existing contacts, so a
contact with the same name and firm is duplicated rather than updated. -/
theorem C6_counterexample :
    pyTruthy examplePerson.full_name = true
    ∧ (handle_clay_person_enriched examplePerson).isCreate = true := by
  decide

/-- C6 (amended): every person-enrichment callback makes the handler create
a fresh Contact record (no lookup of an existing contact by name and firm
is performed, so duplicates are possible); the created contact's `Status`
is `Qualified` exactly when a truthy email is present, else `New`, and the
`Email` property is written exactly when the email is truthy. -/
theorem C6_always_creates_with_status : ∀ data : PersonEnrichedData,
    (handle_clay_person_enriched data).isCreate = true
    ∧ List.lookup "Status" (handle_clay_person_enriched data).props
        = some (.select (if pyTruthy data.email then "Qualified" else "New"))
    ∧ (pyTruthy data.email = true →
        List.lookup "Email" (handle_clay_person_enriched data).props
          = some (.email (data.email.getD ""))) := by
  intro d
  refine ⟨rfl, rfl, fun h => ?_⟩
  simp only [handle_clay_person_enriched, CrmAction.props, h, if_true]
  rfl

/-- C6 witness: the amended theorem applied to the concrete callback
payload, whose email is present. -/
theorem C6_witness :
    List.lookup "Email" (handle_clay_person_enriched examplePerson).props
      = some (.email "jane@acme.com") :=
  (C6_always_creates_with_status examplePerson).2.2 (by decide)

/-- `Char.ofNat` of a valid code point has that code point. -/
theorem toNat_ofNat_valid (n : Nat) (h : n.isValidChar) : (Char.ofNat n).toNat = n := by
  rw [Char.ofNat, dif_pos h]
  rfl

/-- ASCII lowercasing is idempotent: a lowered character is outside the
`A`-`Z` range, so lowering it again changes nothing. -/
theorem toLower_idem (c : Char) : Char.toLower (Char.toLower c) = Char.toLower c := by
  unfold Char.toLower
  by_cases h : c.toNat ≥ 65 ∧ c.toNat ≤ 90
  · rw [if_pos h]
    have hv : (c.toNat + 32).isValidChar := by
      unfold Nat.isValidChar
      left
      omega
    have ht : (Char.ofNat (c.toNat + 32)).toNat = c.toNat + 32 := toNat_ofNat_valid _ hv
    rw [if_neg]
    omega
  · rw [if_neg h, if_neg h]

/-- Replacing occurrences by nothing yields a sublist of the scanned
list. -/
theorem replaceAux_nil_sublist (pat : List Char) : ∀ (s : List Char) (n : Nat),
    List.Sublist (replaceAux pat [] s n) s := by
  intro s
  induction s with
  | nil =>
    intro n
    simp [replaceAux]
  | cons c rest ih =>
    intro n
    cases n with
    | zero =>
      by_cases h : pat ≠ [] ∧ pat.isPrefixOf (c :: rest)
      · rw [show replaceAux pat [] (c :: rest) 0 =
            if pat ≠ [] ∧ pat.isPrefixOf (c :: rest) then
              [] ++ replaceAux pat [] rest (pat.length - 1)
            else c :: replaceAux pat [] rest 0 from rfl,
          if_pos h, List.nil_append]
        exact (ih _).trans (List.sublist_cons_self c rest)
      · rw [show replaceAux pat [] (c :: rest) 0 =
            if pat ≠ [] ∧ pat.isPrefixOf (c :: rest) then
              [] ++ replaceAux pat [] rest (pat.length - 1)
            else c :: replaceAux pat [] rest 0 from rfl,
          if_neg h]
        exact (ih 0).cons₂ c
    | succ n =>
      exact (ih n).trans (List.sublist_cons_self c rest)

/-- A scan for a pattern holding a character the list lacks changes
nothing. -/
theorem replaceAux_eq_of_not_mem {x : Char} {pat : List Char} (repl : List Char)
    (hx : x ∈ pat) : ∀ s : List Char, x ∉ s → replaceAux pat repl s 0 = s := by
  intro s
  induction s with
  | nil =>
    intro
    rfl
  | cons c rest ih =>
    intro hs
    have hnp : ¬ (pat ≠ [] ∧ pat.isPrefixOf (c :: rest)) := by
      rintro ⟨-, hp⟩
      exact hs ((List.isPrefixOf_iff_prefix.mp hp).subset hx)
    rw [show replaceAux pat repl (c :: rest) 0 =
        if pat ≠ [] ∧ pat.isPrefixOf (c :: rest) then
          repl ++ replaceAux pat repl rest (pat.length - 1)
        else c :: replaceAux pat repl rest 0 from rfl,
      if_neg hnp, ih (fun h => hs (List.mem_cons_of_mem c h))]

/-- A scan for a pattern that occurs nowhere in the list changes
nothing. -/
theorem replaceAux_of_no_occurrence {pat : List Char} (repl : List Char) :
    ∀ s : List Char, ¬ pat <:+: s → replaceAux pat repl s 0 = s := by
  intro s
  induction s with
  | nil =>
    intro
    rfl
  | cons c rest ih =>
    intro hs
    have hnp : ¬ (pat ≠ [] ∧ pat.isPrefixOf (c :: rest)) := by
      rintro ⟨-, hp⟩
      exact hs (List.infix_cons_iff.mpr (Or.inl (List.isPrefixOf_iff_prefix.mp hp)))
    have hrest : ¬ pat <:+: rest := fun h => hs (List.infix_cons_iff.mpr (Or.inr h))
    rw [show replaceAux pat repl (c :: rest) 0 =
        if pat ≠ [] ∧ pat.isPrefixOf (c :: rest) then
          repl ++ replaceAux pat repl rest (pat.length - 1)
        else c :: replaceAux pat repl rest 0 from rfl,
      if_neg hnp, ih hrest]

/-- The unfolded form of a successful domain extraction. -/
theorem extract_domain_eq (u : String) (hu : ¬ u = "") :
    extract_domain (some u) = some ⟨List.takeWhile (fun c => c != '/')
      (replaceList "www.".data []
        (replaceList "http://".data []
          (replaceList "https://".data [] (u.data.map Char.toLower))))⟩ := by
  simp only [extract_domain, if_neg hu]
  rfl

/-- Python `in` agrees with list infixes: `containsSub pat s` holds exactly
when `pat` occurs contiguously inside `s`. -/
theorem containsSub_infix_iff (pat : List Char) : ∀ s : List Char,
    containsSub pat s = true ↔ pat <:+: s := by
  intro s
  induction s with
  | nil =>
    simp [containsSub, List.isEmpty_iff, List.infix_nil]
  | cons c rest ih =>
    simp [containsSub, ih, List.infix_cons_iff, List.isPrefixOf_iff_prefix]

/-- C7 counterexample: domain extraction is not idempotent. Extracting from
`"https://"` yields the empty string, which a second extraction maps to
`none`; extracting from `"wwwww.w."` yields `"www."` (replacement does not
rescan), which a second extraction maps to `""`. -/
theorem C7_counterexample :
    extract_domain (extract_domain (some "https://")) ≠ extract_domain (some "https://")
    ∧ extract_domain (extract_domain (some "wwwww.w.")) ≠ extract_domain (some "wwwww.w.") := by
  decide

/-- C7 (amended): the concrete example holds, and extraction is idempotent
on every extraction result that is non-empty and free of a residual
`"www."` substring (the two degenerate families the counterexample
exhibits). -/
theorem C7_extract_domain_idempotent :
    extract_domain (some "https://www.Example.com/path") = some "example.com"
    ∧ ∀ u d : String, extract_domain (some u) = some d → d ≠ "" →
        containsSub "www.".data d.data = false → extract_domain (some d) = some d := by
  refine ⟨by decide, ?_⟩
  intro u d hu hne hw
  by_cases hu0 : u = ""
  · rw [hu0] at hu
    exact Option.noConfusion hu
  · rw [extract_domain_eq u hu0] at hu
    have hd : d.data = List.takeWhile (fun c => c != '/')
        (replaceList "www.".data []
          (replaceList "http://".data []
            (replaceList "https://".data [] (u.data.map Char.toLower)))) := by
      rw [← Option.some.inj hu]
    have hslash : ∀ c ∈ d.data, c ≠ '/' := by
      intro c hc
      rw [hd] at hc
      simpa using List.mem_takeWhile_imp hc
    have hsub : List.Sublist d.data (u.data.map Char.toLower) := by
      rw [hd]
      exact ((List.takeWhile_sublist _).trans
        ((replaceAux_nil_sublist _ _ _).trans
          ((replaceAux_nil_sublist _ _ _).trans (replaceAux_nil_sublist _ _ _))))
    have hlower : ∀ c ∈ d.data, Char.toLower c = c := by
      intro c hc
      obtain ⟨x, -, rfl⟩ := List.mem_map.mp (hsub.subset hc)
      exact toLower_idem x
    have e1 : d.data.map Char.toLower = d.data := by
      calc d.data.map Char.toLower = d.data.map id := List.map_congr_left hlower
        _ = d.data := List.map_id _
    have e2 : replaceList "https://".data [] d.data = d.data :=
      replaceAux_eq_of_not_mem [] (show '/' ∈ "https://".data by decide) d.data
        (fun hmem => (hslash '/' hmem) rfl)
    have e3 : replaceList "http://".data [] d.data = d.data :=
      replaceAux_eq_of_not_mem [] (show '/' ∈ "http://".data by decide) d.data
        (fun hmem => (hslash '/' hmem) rfl)
    have e4 : replaceList "www.".data [] d.data = d.data :=
      replaceAux_of_no_occurrence [] d.data
        (fun hinf => by rw [(containsSub_infix_iff _ _).mpr hinf] at hw; exact absurd hw (by decide))
    have e5 : List.takeWhile (fun c => c != '/') d.data = d.data :=
      List.takeWhile_eq_self_iff.mpr (fun c hc => by simpa using hslash c hc)
    rw [extract_domain_eq d hne, e1, e2, e3, e4, e5]

/-- C7 witness: the amended theorem applied to the concrete example url,
whose extraction result `"example.com"` satisfies both side conditions. -/
theorem C7_witness :
    extract_domain (some "example.com") = some "example.com" :=
  C7_extract_domain_idempotent.2 "https://www.Example.com/path" "example.com"
    (by decide) (by decide) (by decide)

/-- Replacing one character by another is a pointwise map. -/
theorem replaceAux_single (a b : Char) : ∀ s : List Char,
    replaceAux [a] [b] s 0 = s.map (fun c => if c = a then b else c) := by
  intro s
  induction s with
  | nil => rfl
  | cons c rest ih =>
    by_cases h : c = a
    · subst h
      simp [replaceAux, List.isPrefixOf, ih]
    · simp [replaceAux, List.isPrefixOf, Ne.symm h, h, ih]

/-- The sanitized research text contains no newline and no carriage return
and is at most 5000 characters long. -/
theorem sanitize_research_spec (firm_research : String) :
    (sanitize_research firm_research).length ≤ 5000
    ∧ ∀ c ∈ (sanitize_research firm_research).data, c ≠ '\n' ∧ c ≠ '\r' := by
  unfold sanitize_research
  by_cases h : firm_research = ""
  · simp [h]
  · rw [if_neg h]
    constructor
    · show (((pyReplace (pyReplace firm_research "\n" " ") "\r" " ").data).take 5000).length ≤ 5000
      rw [List.length_take]
      exact min_le_left _ _
    · intro c hc
      have hc2 := List.mem_of_mem_take hc
      simp only [pyReplace, replaceList, replaceAux_single] at hc2
      simp only [List.map_map, List.mem_map, Function.comp] at hc2
      obtain ⟨x, -, hx⟩ := hc2
      subst hx
      constructor <;> (by_cases h1 : x = '\n' <;> by_cases h2 : x = '\r' <;> simp [h1, h2])

/-- C5 counterexample: at a concrete scoring request, the handler issues
exactly one LLM call — not the two sequential calls (research phase, then
scoring phase) the claim describes. -/
theorem C5_counterexample :
    (handle_firm_scoring_llm_prompts "Acme Capital" "https://www.acmecapital.com"
      "Upstream enrichment research.").length = 1 := rfl

/-- C5 (amended): every scoring run performs exactly one LLM call: the
scoring call whose prompt interpolates the firm name, website and the
upstream research text sanitized by collapsing newlines and carriage
returns and truncating to 5000 characters. There is no independent
research-phase call. -/
theorem C5_single_scoring_call : ∀ firm_name website firm_research : String,
    handle_firm_scoring_llm_prompts firm_name website firm_research
      = [scoring_prompt firm_name website (sanitize_research firm_research)]
    ∧ (handle_firm_scoring_llm_prompts firm_name website firm_research).length = 1
    ∧ (sanitize_research firm_research).length ≤ 5000
    ∧ ∀ c ∈ (sanitize_research firm_research).data, c ≠ '\n' ∧ c ≠ '\r' := by
  intro n w r
  exact ⟨rfl, rfl, (sanitize_research_spec r).1, (sanitize_research_spec r).2⟩

/-- C8: Classifier negative dominance and default: any reply whose
lowercased body contains a negative keyword is classified
`Responded — Negative` no matter which positive keywords are also present;
a body containing neither keyword class is classified
`Responded — Neutral`. -/
theorem C8_classifier_negative_dominant_and_default : ∀ email_body : String,
    ((∃ k ∈ negative_keywords, containsSub k.data (pyLower email_body).data = true) →
      classify_response_tone email_body = "Responded — Negative")
    ∧ ((∀ k ∈ negative_keywords, containsSub k.data (pyLower email_body).data = false)
        ∧ (∀ k ∈ positive_keywords, containsSub k.data (pyLower email_body).data = false) →
      classify_response_tone email_body = "Responded — Neutral") := by
  intro body
  constructor
  · rintro ⟨k, hk, hc⟩
    have hpos : 0 < negative_keywords.countP
        (fun k => containsSub k.data (pyLower body).data) :=
      List.countP_pos_iff.mpr ⟨k, hk, hc⟩
    simp only [classify_response_tone]
    rw [if_pos hpos]
  · rintro ⟨hneg, hpos⟩
    have hn0 : negative_keywords.countP
        (fun k => containsSub k.data (pyLower body).data) = 0 :=
      List.countP_eq_zero.mpr (fun k hk => by simp [hneg k hk])
    have hp0 : positive_keywords.countP
        (fun k => containsSub k.data (pyLower body).data) = 0 :=
      List.countP_eq_zero.mpr (fun k hk => by simp [hpos k hk])
    simp only [classify_response_tone, hn0, hp0]
    rfl

/-- C8 witness: the theorem applied to a body holding both keyword classes
(negative wins) and to a body holding neither (neutral). -/
theorem C8_witness :
    classify_response_tone "not interested, but sounds good" = "Responded — Negative"
    ∧ classify_response_tone "Received, will circle back." = "Responded — Neutral" :=
  ⟨(C8_classifier_negative_dominant_and_default "not interested, but sounds good").1
    (by decide),
   (C8_classifier_negative_dominant_and_default "Received, will circle back.").2
    (by decide)⟩

/-- C9: the reply handler's record update sets `Outcome` to `Declined`
exactly when the classification is `Responded — Negative` and to
`In Discussion` for every other classification, and always unchecks
`Follow-up Required`. -/
theorem C9_outcome_mapping : ∀ (rs rd : String) (eb : Option String) (cur : String),
    List.lookup "Outcome" (update_outreach_entry_properties rs rd eb cur)
      = some (.select (if rs = "Responded — Negative" then "Declined" else "In Discussion"))
    ∧ List.lookup "Follow-up Required" (update_outreach_entry_properties rs rd eb cur)
      = some (.checkbox false) := by
  intro rs rd eb cur
  unfold update_outreach_entry_properties
  by_cases hrs : rs = "Responded — Negative" <;>
    cases h : pyTruthy eb <;>
      simp [hrs, List.lookup]

/-- C10: for a reply with a non-empty body, the Notes text written by the
reply handler is the previously stored notes followed by a dated marker and
the first at-most-200 characters of the body (then an ellipsis): the old
notes are a prefix of the new text and the excerpt is length-bounded. -/
theorem C10_notes_bounded_append : ∀ (rs rd body cur : String), body ≠ "" →
    List.lookup "Notes" (update_outreach_entry_properties rs rd (some body) cur)
      = some (.rich_text (cur ++ response_snippet rd body))
    ∧ cur.data <+: (cur ++ response_snippet rd body).data
    ∧ response_snippet rd body
        = "\n\n[Response received " ++ rd ++ "]\n" ++ (⟨body.data.take 200⟩ : String) ++ "..."
    ∧ (⟨body.data.take 200⟩ : String).length ≤ 200 := by
  intro rs rd body cur h
  have ht : pyTruthy (some body) = true := by
    simp [pyTruthy, h]
  refine ⟨?_, ?_, rfl, ?_⟩
  · unfold update_outreach_entry_properties
    rw [ht]
    rfl
  · exact List.prefix_append cur.data (response_snippet rd body).data
  · show (body.data.take 200).length ≤ 200
    rw [List.length_take]
    exact min_le_left _ _

/-- C10 witness: the theorem applied to a concrete reply. -/
theorem C10_witness :
    List.lookup "Notes"
        (update_outreach_entry_properties "Responded — Positive" "2026-01-02"
          (some "Happy to connect next week.") "Earlier notes.")
      = some (.rich_text ("Earlier notes." ++ response_snippet "2026-01-02" "Happy to connect next week.")) :=
  (C10_notes_bounded_append "Responded — Positive" "2026-01-02"
    "Happy to connect next week." "Earlier notes." (by decide)).1

/-- C2: Outreach fallback totality: whenever the LLM call fails (error
result or raised exception, covering provider errors, parse errors and a
missing API credential) the outreach generation returns the fixed fallback
draft: success is still true, the subject and body are non-empty, and the
primary client is the neutral `General`. This holds for every firm-data
input, including a missing or empty firm name. -/
theorem C2_outreach_fallback_totality :
    ∀ (firm_name : Option String) (llm : LLMOutreachOutcome), llm.failed →
    (generate_outreach_for_firm firm_name llm).success = true
    ∧ (generate_outreach_for_firm firm_name llm).subject ≠ ""
    ∧ (generate_outreach_for_firm firm_name llm).body ≠ ""
    ∧ (generate_outreach_for_firm firm_name llm).primary_client = "General" := by
  intro fn llm h
  match llm with
  | .raised =>
    exact fallback_outreach_spec (fn.getD "Unknown Firm")
  | .returned r =>
    have hs : r.success = false := h
    simp only [generate_outreach_for_firm, hs, Bool.false_eq_true, if_false]
    exact fallback_outreach_spec (fn.getD "Unknown Firm")

/-- C2 witness: the theorem applied to an empty firm name and a raised
LLM exception. -/
theorem C2_witness :
    (generate_outreach_for_firm (some "") LLMOutreachOutcome.raised).success = true
    ∧ (generate_outreach_for_firm (some "") LLMOutreachOutcome.raised).primary_client
        = "General" :=
  ⟨(C2_outreach_fallback_totality (some "") .raised trivial).1,
   (C2_outreach_fallback_totality (some "") .raised trivial).2.2.2⟩
